import Mathlib

set_option maxRecDepth 8000

/-!
Verification development for the runpod_manager repository: a shallow
embedding of `runpod_manager/config.py` and `runpod_manager/core.py`.

Modelling conventions:
  * Python dict records returned by the provider SDK are embedded as Lean
    structures whose optional fields are `Option`-valued (a `.get` with a
    default collapses to the defaulted value).
  * Provider calls that may raise are embedded as `Except String` values
    carried in an explicit environment `Env`; the `k`-th call to the
    provider's list-pods endpoint yields `Env.podsSeq k` (each operation
    performs a fresh listing query, so listings are indexed by query count).
  * Every operation returns its boolean result, the final query counter,
    the list of lines printed to stdout (one list entry per `print` call),
    and the trace of provider calls issued (`Effect`).
  * Spot prices (Python floats) are embedded as exact rationals `Rat`;
    the float-to-text formats `%.3f` and `str` are mirrored by `fmt3`
    and `ratStr` below.
-/

/-- A pod record from the provider listing: `name` via `pod.get('name','')`,
`id` via `pod.get('id')` (absent key gives `none`), `desiredStatus` via
`pod.get('desiredStatus','UNKNOWN')`. -/
structure Pod where
  name : String
  id : Option String
  desiredStatus : Option String := none
deriving DecidableEq, Repr

/-- Truthiness of an optional string, as Python tests `if s:`. -/
def strTruthy : Option String → Bool
  | none => false
  | some s => s != ""

/-- A GPU offering record (basic records from `get_gpus` carry no price
fields; detailed records from `get_gpu` may). `lowestBid` is `some b`
exactly when `gpu['lowestPrice']` is truthy and holds a truthy
`minimumBidPrice` `b` (the only way that nested dict is consumed). -/
structure GpuRecord where
  id : String
  displayName : Option String := none
  communitySpotPrice : Option Rat := none
  secureSpotPrice : Option Rat := none
  lowestBid : Option Rat := none
deriving DecidableEq, Repr

/-- A Python value returned by `runpod.create_pod` / `resume_pod` / etc.
For dicts only the `'id'` entry is consumed (`result.get('id')`), so a dict
is embedded by that entry. -/
inductive PyVal where
  | pyNone
  | pyBool (b : Bool)
  | pyInt (n : Int)
  | pyStr (s : String)
  | pyDict (idEntry : Option String)
deriving DecidableEq, Repr

/-- Python `str()` of a `PyVal` (also its appearance in an f-string). -/
def pyvalStr : PyVal → String
  | .pyNone => "None"
  | .pyBool true => "True"
  | .pyBool false => "False"
  | .pyInt n => toString n
  | .pyStr s => s
  | .pyDict (some i) => "\x7b\x27id\x27: \x27" ++ i ++ "\x27\x7d"
  | .pyDict none => "\x7b\x7d"

/-- Provider calls issued by the manager. -/
inductive Effect where
  | getPods
  | getGpus
  | getGpuDetail (id : String)
  | resumePod (id : String) (gpuCount : Int)
  | stopPod (id : String)
  | createPod (gpuTypeId : String)
  | terminatePod (id : String)
deriving DecidableEq, Repr

/-- Whether a provider call changes provider-side state (resume, stop,
create, terminate) as opposed to a read-only query. -/
def Effect.mutating : Effect → Bool
  | .resumePod _ _ => true
  | .stopPod _ => true
  | .createPod _ => true
  | .terminatePod _ => true
  | _ => false

/-- The provider environment: outcome of each SDK call an operation can
issue. `podsSeq k` is the result of the `k`-th `runpod.get_pods()` call;
the `Except` error component carries the exception message. -/
structure Env where
  podsSeq : Nat → Except String (List Pod)
  resumeRes : String → Except String PyVal
  stopRes : String → Except String PyVal
  createRes : String → Except String PyVal
  terminateRes : String → Except String PyVal
  gpusRes : Except String (List GpuRecord)
  gpuDetailRes : String → Except String GpuRecord

/-- Result of one manager operation: boolean outcome, final get-pods query
counter, stdout lines, and the provider-call trace. -/
structure OpResult where
  ok : Bool
  kEnd : Nat
  out : List String
  fx : List Effect
deriving Repr

/-! ## Configuration loader (`config.py`) -/

/-- One iteration of the config-file reading loop of
`PodConfig._load_config`: strip the line, skip blanks, `#` comments and
lines without `=`, else split at the first `=` and store the stripped
key/value pair into the accumulated mapping. -/
def parseConfigLine (m : String → Option String) (line : String) : String → Option String :=
  let l := line.trim
  if l ≠ "" ∧ ¬ l.startsWith "#" ∧ l.contains '=' then
    let parts := l.splitOn "="
    let key := (parts.headD "").trim
    let value := (String.intercalate "=" parts.tail).trim
    fun k => if k = key then some value else m k
  else m

/-- The config-file contents folded into a mapping, later lines overriding
earlier ones (dict assignment). -/
def parseConfigFile (lines : List String) : String → Option String :=
  lines.foldl parseConfigLine (fun _ => none)

/-- The built-in defaults installed by the `setdefault` calls of
`PodConfig._load_config`. -/
def configDefaults : List (String × String) :=
  [("MAX_GPU_PRICE", "0.30"), ("CONTAINER_DISK", "20"),
   ("INACTIVITY_TIMEOUT_SECONDS", "3600"), ("VOLUME_MOUNT_PATH", "/workspace"),
   ("GPU_COUNT", "1"), ("SUPPORT_PUBLIC_IP", "true"), ("START_SSH", "true")]

/-- The `setdefault` pass: each default key is set only when absent. -/
def applyDefaults (m : String → Option String) : String → Option String :=
  configDefaults.foldl (fun acc kv => fun k => if k = kv.1 then some ((acc kv.1).getD kv.2) else acc k) m

/-- The `config.update(kwargs)` pass: every keyword override is written
unconditionally (later entries override earlier ones). -/
def applyKwargs (kwargs : List (String × String)) (m : String → Option String) : String → Option String :=
  kwargs.foldl (fun acc kv => fun k => if k = kv.1 then some kv.2 else acc k) m

/-- The file-contents layer of `PodConfig._load_config`: the mapping read
from the config file, with the filesystem embedded as a partial map from
path to file lines. A falsy (empty) path and a non-existing path both skip
the file-reading block, leaving the mapping empty. -/
def configFileMap (fs : String → Option (List String)) (configFile : Option String) :
    String → Option String :=
  match configFile with
  | some p =>
    if p ≠ "" then
      match fs p with
      | some lines => parseConfigFile lines
      | none => fun _ => none
    else fun _ => none
  | none => fun _ => none

/-- `PodConfig._load_config`: read the file contents, install the built-in
defaults for absent keys, then write the explicit keyword overrides. -/
def loadConfig (fs : String → Option (List String)) (configFile : Option String)
    (kwargs : List (String × String)) : String → Option String :=
  applyKwargs kwargs (applyDefaults (configFileMap fs configFile))

/-- `PodConfig.get_pod_name_prefix`. -/
def podNamePfx (projectName podType : String) : String :=
  projectName ++ "-" ++ podType ++ "-"

/-- `PodConfig.get_pod_name`. -/
def podName (projectName podType : String) (timestamp : Nat) : String :=
  projectName ++ "-" ++ podType ++ "-" ++ toString timestamp

/-! ## Numeric formatting helpers for the printed diagnostics -/

/-- Right-align a number in width 2, the `{i:2d}` format. -/
def pad2 (n : Nat) : String :=
  if n < 10 then " " ++ toString n else toString n

/-- Three-decimal fixed formatting of a price, mirroring the `%.3f`
f-string format applied to spot prices (floats are modeled as exact
rationals; ties round to even as in IEEE formatting). -/
def fmt3 (q : Rat) : String :=
  let sgn := if q < 0 then "-" else ""
  let a : Rat := |q|
  let scaled : Rat := a * 1000
  let fl : Nat := scaled.floor.toNat
  let frac : Rat := scaled - (fl : Rat)
  let n : Nat :=
    if frac > (1 : Rat)/2 then fl + 1
    else if frac < (1 : Rat)/2 then fl
    else if fl % 2 = 0 then fl else fl + 1
  let fpStr := toString (n % 1000)
  let pad := String.mk (List.replicate (3 - fpStr.length) '0')
  sgn ++ toString (n / 1000) ++ "." ++ pad ++ fpStr

/-- Decimal rendering of a price the way Python `str()` renders the
decimal-valued prices appearing here (shortest terminating expansion). -/
def ratStr (q : Rat) : String :=
  let sgn := if q < 0 then "-" else ""
  let a : Rat := |q|
  match (List.range 18).find? (fun k => (a * ((10 : Rat) ^ k)).den == 1) with
  | some k =>
    let n : Nat := (a * ((10 : Rat) ^ k)).num.toNat
    if k = 0 then sgn ++ toString n ++ ".0"
    else
      let fpStr := toString (n % 10 ^ k)
      let pad := String.mk (List.replicate (k - fpStr.length) '0')
      sgn ++ toString (n / 10 ^ k) ++ "." ++ pad ++ fpStr
  | none => sgn ++ toString a

/-- The `"=" * 60` separator line. -/
def eq60 : String := String.mk (List.replicate 60 '=')

/-- Substring test, Python's `pat in s`. -/
def containsSub (s pat : String) : Bool :=
  (s.splitOn pat).length != 1

/-! ## Pod discovery and status (`core.py`) -/

/-- Result of `PodManager._find_pod_by_type`: the two returned values plus
the lines it printed. -/
structure FindResult where
  podId : Option String
  podUrl : Option String
  out : List String
deriving Repr

/-- The scan loop of `_find_pod_by_type`: the first pod whose name starts
with the prefix and whose `id` entry is truthy (a prefix-matching pod
without a truthy id is skipped and the scan continues). -/
def findMatch (pfx : String) : List Pod → Option Pod
  | [] => none
  | p :: rest => if p.name.startsWith pfx ∧ strTruthy p.id then some p else findMatch pfx rest

/-- `PodManager._find_pod_by_type`. Takes the outcome of the single
`runpod.get_pods()` call it performs; a raised exception is caught and
reported as `(none, none)` with a forced diagnostic line, so no exception
escapes the function. -/
def findPodByType (pods : Except String (List Pod)) (projectName podType : String)
    (verbose : Bool) : FindResult :=
  match pods with
  | .error e => ⟨none, none, ["❌ Error finding pod: " ++ e]⟩
  | .ok ps =>
    let pfx := podNamePfx projectName podType
    let header := if verbose then ["🔍 Found " ++ toString ps.length ++ " total pods"] else []
    match findMatch pfx ps with
    | some p =>
      let pid := p.id.getD ""
      ⟨some pid, some (pid ++ "-5000.proxy.runpod.net"),
        header ++ (if verbose then ["✅ Found " ++ podType ++ " pod: " ++ p.name ++ " (ID: " ++ pid ++ ")"] else [])⟩
    | none =>
      ⟨none, none,
        header ++ (if verbose then ["❌ No " ++ podType ++ " pod found with prefix \x27" ++ pfx ++ "\x27"] else [])⟩

/-- Outcome of the lookup loop inside `get_pod_status`: the pod was found
with a status, the loop fell through (`NOT_FOUND`), or a pod record without
an `'id'` key made `pod['id']` raise a `KeyError`. -/
inductive StatusLookup where
  | found (status : String)
  | fellThrough
  | keyErr
deriving DecidableEq, Repr

/-- The lookup loop of `get_pod_status` over a successfully fetched
listing. -/
def statusLookup (podId : String) : List Pod → StatusLookup
  | [] => .fellThrough
  | p :: rest =>
    match p.id with
    | none => .keyErr
    | some i => if i = podId then .found (p.desiredStatus.getD "UNKNOWN") else statusLookup podId rest

/-- `PodManager.get_pod_status`: returns the status string and the lines
printed. A failed listing call or the `KeyError` from `pod['id']` is caught
and reported as `'Error'`. -/
def getPodStatus (pods : Except String (List Pod)) (podId : String) (verbose : Bool) :
    String × List String :=
  match pods with
  | .error e => ("Error", ["❌ Failed to get pod status: " ++ e])
  | .ok ps =>
    let header := if verbose then ["🔍 Found " ++ toString ps.length ++ " total pods"] else []
    match statusLookup podId ps with
    | .found s => (s, header ++ (if verbose then ["Pod " ++ podId ++ " status: " ++ s] else []))
    | .fellThrough => ("NOT_FOUND", header ++ ["❌ Pod " ++ podId ++ " not found"])
    | .keyErr => ("Error", header ++ ["❌ Failed to get pod status: \x27id\x27"])

/-- `PodManager.wait_for_status`: poll every 5 seconds (the poll clock is
explicit: iteration at elapsed time `elapsed`, which grows by 5 per loop)
until the status is in `targets` (success), or is `Error`/`NOT_FOUND`
(immediate failure), or the timeout elapses (failure). `k` is the get-pods
query counter; returns (result, final counter, printed lines, call trace). -/
def waitForStatus (env : Env) (podId : String) (targets : List String) (verbose : Bool)
    (timeout : Nat) (k elapsed : Nat) : Bool × Nat × List String × List Effect :=
  if elapsed < timeout then
    let so := getPodStatus (env.podsSeq k) podId verbose
    if so.1 ∈ targets then (true, k + 1, so.2, [.getPods])
    else if so.1 ∈ ["Error", "NOT_FOUND"] then (false, k + 1, so.2, [.getPods])
    else
      let w := if verbose then ["Waiting for pod status... Current: " ++ so.1] else []
      let r := waitForStatus env podId targets verbose timeout (k + 1) (elapsed + 5)
      (r.1, r.2.1, so.2 ++ w ++ r.2.2.1, .getPods :: r.2.2.2)
  else (false, k, [], [])
termination_by timeout - elapsed
decreasing_by omega

/-! ## Deploy path (`PodManager.deploy_pod`) -/

/-- Point-of-use coerced configuration values consumed by the manager
operations (numeric/boolean config strings are modeled by their coerced
values; `Option` fields are `none` when the config value is falsy). -/
structure DeployConfig where
  projectName : String
  apiKey : String
  maxGpuPrice : Rat := 3/10
  containerDisk : Int := 20
  gpuCount : Int := 1
  imageNameBase : Option String := none
  templateId : Option String := none
  networkVolumeId : Option String := none
  volumeMountPath : String := "/workspace"
  supportPublicIp : Bool := true
  startSsh : Bool := true

/-- Effective minimum spot price of a GPU offering: the community spot
price when present, else the secure spot price, else absent. -/
def effectiveMinPrice (g : GpuRecord) : Option Rat :=
  match g.communitySpotPrice with
  | some p => some p
  | none => g.secureSpotPrice

/-- An entry of the `affordable_gpus` list built by the filter loop. -/
structure AffordableGpu where
  id : String
  name : String
  price : Rat
  communitySpot : Option Rat
  secureSpot : Option Rat
deriving DecidableEq, Repr

/-- The `affordable_gpus` entry built from a GPU record and its effective
price. -/
def mkAffordable (g : GpuRecord) (p : Rat) : AffordableGpu :=
  ⟨g.id, g.displayName.getD g.id, p, g.communitySpotPrice, g.secureSpotPrice⟩

/-- The price-ceiling filter loop: keep each GPU whose effective minimum
price exists and is at most the ceiling. -/
def affordableGpus (gpus : List GpuRecord) (maxPrice : Rat) : List AffordableGpu :=
  gpus.filterMap fun g =>
    match effectiveMinPrice g with
    | some p => if p ≤ maxPrice then some (mkAffordable g p) else none
    | none => none

/-- `affordable_gpus.sort(key=lambda x: x['price'])`: Python's stable
ascending sort by price, embedded as the stable insertion sort. -/
def sortByPrice (l : List AffordableGpu) : List AffordableGpu :=
  List.insertionSort (fun a b => a.price ≤ b.price) l

/-- Image name resolution of `deploy_pod`: a truthy configured base image
is used as-is when it already carries a tag, else the pod type is appended
as the tag; otherwise the documented default image is used. -/
def resolveImageName (imageNameBase : Option String) (podType : String) : String :=
  match imageNameBase with
  | some base =>
    if base ≠ "" then
      if base.contains ':' then base else base ++ ":" ++ podType
    else "runpod/pytorch:latest"
  | none => "runpod/pytorch:latest"

/-- Classification of a per-GPU creation failure by message substring,
used purely for the diagnostic line. -/
def classifyLine (name msg : String) : String :=
  if containsSub msg.toLower "no longer any instances available" then
    "⚠️ " ++ name ++ " not available, trying next GPU..."
  else if containsSub msg.toLower "insufficient funds" then
    "⚠️ Insufficient funds for " ++ name ++ ", trying next GPU..."
  else
    "⚠️ Error with " ++ name ++ ": " ++ msg

/-- Pod-id extraction from a creation result:
`result.get('id') if isinstance(result, dict) else str(result)`. -/
def extractPodId (v : PyVal) : Option String :=
  match v with
  | .pyDict i => i
  | w => some (pyvalStr w)

/-- Truthiness of the extracted pod id (`if pod_id:`). -/
def podIdTruthy : Option String → Bool
  | none => false
  | some s => s != ""

/-- Whether one creation attempt on a candidate GPU succeeds: the call
returns without raising and yields a truthy pod id. -/
def succeedsB (create : String → Except String PyVal) (a : AffordableGpu) : Bool :=
  match create a.id with
  | .ok v => podIdTruthy (extractPodId v)
  | .error _ => false

/-- The creation fallback loop of `deploy_pod`: try each affordable GPU
in order (`i` is the 0-based loop index, `n` the candidate count, both
only feeding the verbose progress line); a raised creation error prints an
unconditional `Error:` line plus a verbose classification line and moves
on; a result with a truthy pod id returns success (printing the pod id in
non-verbose mode); a result without one moves on. Returns
(success, printed lines, creation-call trace). -/
def deployTry (create : String → Except String PyVal) (verbose : Bool) (n : Nat) :
    Nat → List AffordableGpu → Bool × List String × List Effect
  | _, [] => (false, [], [])
  | i, g :: rest =>
    let trying := if verbose then
      ["\n🔄 Trying GPU " ++ toString (i + 1) ++ "/" ++ toString n ++ ": " ++ g.name ++ " - $" ++ fmt3 g.price ++ "/hr"]
      else []
    match create g.id with
    | .error msg =>
      let cls := if verbose then [classifyLine g.name msg] else []
      let r := deployTry create verbose n (i + 1) rest
      (r.1, trying ++ ["Error: " ++ msg] ++ cls ++ r.2.1, .createPod g.id :: r.2.2)
    | .ok v =>
      let resLine := if verbose then ["🔍 Create result: " ++ pyvalStr v] else []
      if podIdTruthy (extractPodId v) then
        let pid := (extractPodId v).getD ""
        let success := if verbose then
          ["✅ Pod created successfully with " ++ g.name ++ "!",
           "Pod ID: " ++ pid,
           "Pod URL: https://" ++ pid ++ "-5000.proxy.runpod.net"]
          else [pid]
        (true, trying ++ resLine ++ success, [.createPod g.id])
      else
        let noid := if verbose then
          ["⚠️ Pod creation returned no ID for " ++ g.name ++ ", trying next GPU..."]
          else []
        let r := deployTry create verbose n (i + 1) rest
        (r.1, trying ++ resLine ++ noid ++ r.2.1, .createPod g.id :: r.2.2)

/-- Lines 313-438 of `core.py`: filter the detailed GPU list by the price
ceiling (printing the filter banner unconditionally and one line per kept
GPU in verbose mode), fail at once when nothing is affordable, else sort
ascending by price and run the creation fallback loop, failing when every
candidate failed. -/
def deployWithGpus (cfg : DeployConfig) (create : String → Except String PyVal)
    (verbose : Bool) (gpus : List GpuRecord) (podType : String) (timestamp : Nat) : OpResult :=
  let aff := affordableGpus gpus cfg.maxGpuPrice
  let filterLine := "\n🔍 Filtering GPUs under $" ++ ratStr cfg.maxGpuPrice ++ "/hr..."
  let affLines := if verbose then
    aff.map (fun a => "✅ " ++ a.name ++ " - $" ++ fmt3 a.price ++ "/hr (affordable)") else []
  if aff.isEmpty then
    ⟨false, 0, [filterLine] ++ affLines ++ ["❌ No GPUs found under $" ++ ratStr cfg.maxGpuPrice ++ "/hr"], []⟩
  else
    let sorted := sortByPrice aff
    let pn := podName cfg.projectName podType timestamp
    let imageName := resolveImageName cfg.imageNameBase podType
    let creating := if verbose then
      ["Creating pod: " ++ pn]
      ++ (if imageName ≠ "" then ["Image: " ++ imageName] else [])
      ++ ["Container Disk: " ++ toString cfg.containerDisk ++ "GB"]
      else []
    let t := deployTry create verbose sorted.length 0 sorted
    let failLine := if t.1 then [] else
      ["❌ All " ++ toString aff.length ++ " affordable GPUs failed. No pod could be created."]
    ⟨t.1, 0, [filterLine] ++ affLines ++ creating ++ t.2.1 ++ failLine, t.2.2⟩

/-- The per-GPU lines of the pricing table printed unconditionally for
each detailed record (lines 284-303 of `core.py`); `i` is the 1-based
enumeration index and `basicId` the id of the basic record. -/
def gpuDetailLines (i : Nat) (basicId : String) (g : GpuRecord) : List String :=
  [pad2 i ++ ". " ++ g.displayName.getD basicId,
   "    ID: " ++ basicId]
  ++ [match g.communitySpotPrice with
      | some p => "    Community Spot: $" ++ fmt3 p ++ "/hr"
      | none => "    Community Spot: N/A"]
  ++ [match g.secureSpotPrice with
      | some p => "    Secure Spot: $" ++ fmt3 p ++ "/hr"
      | none => "    Secure Spot: N/A"]
  ++ (match g.lowestBid with
      | some b => ["    Min Bid: $" ++ fmt3 b ++ "/hr"]
      | none => [])
  ++ [""]

/-- The detail-lookup loop of `deploy_pod` (lines 274-309): for each basic
GPU record query its detailed pricing, printing the table block; on a
failed detail lookup print only a verbose warning and fall back to the
basic (priceless) record. Returns (detailed records, printed lines,
detail-call trace). -/
def detailPhase (detail : String → Except String GpuRecord) (verbose : Bool) :
    Nat → List GpuRecord → List GpuRecord × List String × List Effect
  | _, [] => ([], [], [])
  | i, b :: rest =>
    match detail b.id with
    | .ok d =>
      let r := detailPhase detail verbose (i + 1) rest
      (d :: r.1, gpuDetailLines i b.id d ++ r.2.1, .getGpuDetail b.id :: r.2.2)
    | .error e =>
      let warn := if verbose then
        ["Warning: Could not get detailed pricing for " ++ b.id ++ ": " ++ e] else []
      let r := detailPhase detail verbose (i + 1) rest
      (b :: r.1, warn ++ r.2.1, .getGpuDetail b.id :: r.2.2)

/-- `PodManager.deploy_pod`: query the GPU offerings (a raised listing
error is caught by the outer handler and fails the operation), print the
pricing table while collecting detailed records, then filter/sort/try as
in `deployWithGpus`. `timestamp` is `int(time.time())` at the naming
point; `k` is the get-pods query counter (deploy issues no get-pods
call, so it is returned unchanged). -/
def deployPod (env : Env) (cfg : DeployConfig) (podType : String) (timestamp : Nat)
    (verbose : Bool) (k : Nat) : OpResult :=
  let head := if verbose then ["Deploying new " ++ podType ++ " pod..."] else []
  match env.gpusRes with
  | .error e => ⟨false, k, head ++ ["❌ Deployment failed: " ++ e], [.getGpus]⟩
  | .ok basics =>
    let found := if verbose then ["🔍 Found " ++ toString basics.length ++ " GPU types"] else []
    let d := detailPhase env.gpuDetailRes verbose 1 basics
    let rest := deployWithGpus cfg env.createRes verbose d.1 podType timestamp
    ⟨rest.ok, k,
     head ++ found ++ ["\n=== Available GPUs with Spot Prices ===", eq60] ++ d.2.1 ++ [eq60] ++ rest.out,
     .getGpus :: d.2.2 ++ rest.fx⟩

/-! ## Lifecycle operations (`core.py`) -/

/-- `PodManager.terminate_pod`: find the pod by naming convention; absent
means failure (nothing to terminate); otherwise issue the delete call and
report success unconditionally when it does not raise. -/
def terminatePod (env : Env) (cfg : DeployConfig) (podType : String) (verbose : Bool)
    (k : Nat) : OpResult :=
  let l0 := if verbose then ["Terminating " ++ podType ++ " pod..."] else []
  let fr := findPodByType (env.podsSeq k) cfg.projectName podType verbose
  match fr.podId with
  | none =>
    ⟨false, k + 1, l0 ++ fr.out ++ (if verbose then ["❌ No " ++ podType ++ " pod found"] else []),
     [.getPods]⟩
  | some pid =>
    let idLines := if verbose then
      ["Pod ID: " ++ pid, "Server Host: " ++ fr.podUrl.getD ""] else []
    match env.terminateRes pid with
    | .ok r =>
      let resLine := if verbose then ["🔍 Terminate result: " ++ pyvalStr r] else []
      let done := if verbose then ["✅ Pod " ++ pid ++ " terminated successfully!"] else ["TERMINATED"]
      ⟨true, k + 1, l0 ++ fr.out ++ idLines ++ resLine ++ done, [.getPods, .terminatePod pid]⟩
    | .error e =>
      ⟨false, k + 1, l0 ++ fr.out ++ idLines ++ ["❌ Termination failed: " ++ e],
       [.getPods, .terminatePod pid]⟩

/-- `PodManager.stop_pod`: absent pod is success (idempotent over
absence); an already-stopped pod is success printing its status; a
`NOT_FOUND`/`Error` status is failure; otherwise issue the stop call and
wait for a stopped state, printing the final status on success. -/
def stopPod (env : Env) (cfg : DeployConfig) (podType : String) (verbose : Bool)
    (k : Nat) : OpResult :=
  let l0 := if verbose then ["Stopping " ++ podType ++ " pod..."] else []
  let fr := findPodByType (env.podsSeq k) cfg.projectName podType verbose
  match fr.podId with
  | none =>
    ⟨true, k + 1,
     l0 ++ fr.out ++ (if verbose then ["❌ No " ++ podType ++ " pod found. No action needed."] else []),
     [.getPods]⟩
  | some pid =>
    let idLines := if verbose then
      ["Pod ID: " ++ pid, "Server Host: " ++ fr.podUrl.getD ""] else []
    let so := getPodStatus (env.podsSeq (k + 1)) pid verbose
    let cur := if verbose then ["Current status: " ++ so.1] else []
    let pre := l0 ++ fr.out ++ idLines ++ so.2 ++ cur
    if so.1 ∈ ["EXITED", "STOPPED"] then
      ⟨true, k + 2,
       pre ++ (if verbose then ["✅ Pod is already stopped. No action needed."] else [so.1]),
       [.getPods, .getPods]⟩
    else if so.1 ∈ ["NOT_FOUND", "Error"] then
      ⟨false, k + 2, pre ++ ["❌ Pod not found or error getting status"], [.getPods, .getPods]⟩
    else
      let stopping := if verbose then ["Stopping pod " ++ pid ++ "..."] else []
      match env.stopRes pid with
      | .error e =>
        ⟨false, k + 2, pre ++ stopping ++ ["❌ Stop failed: " ++ e],
         [.getPods, .getPods, .stopPod pid]⟩
      | .ok r =>
        let resLine := if verbose then ["🔍 Stop result: " ++ pyvalStr r] else []
        let sent := if verbose then ["Stop command sent. Waiting for pod to stop..."] else []
        let w := waitForStatus env pid ["EXITED", "STOPPED"] verbose 300 (k + 2) 0
        if w.1 then
          let fin := getPodStatus (env.podsSeq w.2.1) pid verbose
          ⟨true, w.2.1 + 1,
           pre ++ stopping ++ resLine ++ sent ++ w.2.2.1 ++ fin.2
             ++ (if verbose then ["✅ Pod is now stopped successfully!"] else [fin.1]),
           [.getPods, .getPods, .stopPod pid] ++ w.2.2.2 ++ [.getPods]⟩
        else
          ⟨false, w.2.1,
           pre ++ stopping ++ resLine ++ sent ++ w.2.2.1 ++ ["❌ Pod failed to stop"],
           [.getPods, .getPods, .stopPod pid] ++ w.2.2.2⟩

/-- `PodManager.start_pod`: absent pod either deploys a new one (when the
flag is set) or fails; an already-`RUNNING` pod succeeds immediately; a
`NOT_FOUND`/`Error` status deploys-new or fails; otherwise issue the
resume call and wait for `RUNNING`, with deploy-new fallback on wait
failure, and terminate-then-deploy fallback when the resume call raises. -/
def startPod (env : Env) (cfg : DeployConfig) (podType : String) (timestamp : Nat)
    (deployNewIfNeeded : Bool) (verbose : Bool) (k : Nat) : OpResult :=
  let l0 := if verbose then ["Starting " ++ podType ++ " pod..."] else []
  let fr := findPodByType (env.podsSeq k) cfg.projectName podType verbose
  match fr.podId with
  | none =>
    let notFound := if verbose then ["❌ No " ++ podType ++ " pod found"] else []
    if deployNewIfNeeded then
      let attempt := if verbose then ["Pod not found, attempting to deploy a new pod..."] else []
      let d := deployPod env cfg podType timestamp verbose (k + 1)
      ⟨d.ok, d.kEnd, l0 ++ fr.out ++ notFound ++ attempt ++ d.out, .getPods :: d.fx⟩
    else
      ⟨false, k + 1, l0 ++ fr.out ++ notFound, [.getPods]⟩
  | some pid =>
    let idLines := if verbose then
      ["Pod ID: " ++ pid, "Server Host: " ++ fr.podUrl.getD ""] else []
    let so := getPodStatus (env.podsSeq (k + 1)) pid verbose
    let cur := if verbose then ["Current status: " ++ so.1] else []
    let pre := l0 ++ fr.out ++ idLines ++ so.2 ++ cur
    if so.1 = "RUNNING" then
      ⟨true, k + 2,
       pre ++ (if verbose then ["✅ Pod is already running. No action needed."] else ["RUNNING"]),
       [.getPods, .getPods]⟩
    else if so.1 = "NOT_FOUND" ∨ so.1 = "Error" then
      if deployNewIfNeeded then
        let attempt := if verbose then ["Pod not found, attempting to deploy a new pod..."] else []
        let d := deployPod env cfg podType timestamp verbose (k + 2)
        ⟨d.ok, d.kEnd, pre ++ attempt ++ d.out, [.getPods, .getPods] ++ d.fx⟩
      else
        ⟨false, k + 2, pre ++ ["❌ Pod not found and deploy_new_if_needed is False"],
         [.getPods, .getPods]⟩
    else
      let starting := if verbose then ["Starting pod " ++ pid ++ "..."] else []
      match env.resumeRes pid with
      | .error e =>
        let failLine := ["❌ Start failed: " ++ e]
        if deployNewIfNeeded then
          let msg := if verbose then
            ["Start command failed, terminating current pod and attempting to deploy a new pod..."]
            else []
          let t := terminatePod env cfg podType verbose (k + 2)
          let d := deployPod env cfg podType timestamp verbose t.kEnd
          ⟨d.ok, d.kEnd, pre ++ starting ++ failLine ++ msg ++ t.out ++ d.out,
           [.getPods, .getPods, .resumePod pid cfg.gpuCount] ++ t.fx ++ d.fx⟩
        else
          ⟨false, k + 2, pre ++ starting ++ failLine,
           [.getPods, .getPods, .resumePod pid cfg.gpuCount]⟩
      | .ok r =>
        let resLine := if verbose then ["🔍 Start result: " ++ pyvalStr r] else []
        let sent := if verbose then ["Start command sent. Waiting for pod to start..."] else []
        let w := waitForStatus env pid ["RUNNING"] verbose 300 (k + 2) 0
        if w.1 then
          ⟨true, w.2.1,
           pre ++ starting ++ resLine ++ sent ++ w.2.2.1
             ++ (if verbose then ["✅ Pod is now running successfully!"] else ["RUNNING"]),
           [.getPods, .getPods, .resumePod pid cfg.gpuCount] ++ w.2.2.2⟩
        else
          let failed := ["❌ Pod failed to start"]
          if deployNewIfNeeded then
            let msg := if verbose then ["Pod failed to start, attempting to deploy a new pod..."] else []
            let d := deployPod env cfg podType timestamp verbose w.2.1
            ⟨d.ok, d.kEnd, pre ++ starting ++ resLine ++ sent ++ w.2.2.1 ++ failed ++ msg ++ d.out,
             [.getPods, .getPods, .resumePod pid cfg.gpuCount] ++ w.2.2.2 ++ d.fx⟩
          else
            ⟨false, w.2.1, pre ++ starting ++ resLine ++ sent ++ w.2.2.1 ++ failed,
             [.getPods, .getPods, .resumePod pid cfg.gpuCount] ++ w.2.2.2⟩

/-- `PodManager.restart_pod`: sequential stop-then-start; when the stop
fails the start is not attempted. -/
def restartPod (env : Env) (cfg : DeployConfig) (podType : String) (timestamp : Nat)
    (deployNewIfNeeded : Bool) (verbose : Bool) (k : Nat) : OpResult :=
  let l0 := if verbose then ["Restarting " ++ podType ++ " pod..."] else []
  let s := stopPod env cfg podType verbose k
  if s.ok then
    let st := startPod env cfg podType timestamp deployNewIfNeeded verbose s.kEnd
    ⟨st.ok, st.kEnd, l0 ++ s.out ++ st.out, s.fx ++ st.fx⟩
  else
    ⟨false, s.kEnd, l0 ++ s.out ++ ["❌ Failed to stop pod for restart"], s.fx⟩

/-- Rendering of the discovered URL in `status_pod`: prepend a scheme when
the URL is truthy and lacks one; `POD_URL=None` appears when the URL is
absent (the f-string renders Python `None`). -/
def normalizeUrl (url : Option String) : String :=
  match url with
  | some u => if u ≠ "" ∧ ¬ u.startsWith "http" then "https://" ++ u else u
  | none => "None"

/-- `PodManager.status_pod`: absent pod is failure; otherwise print the
`POD_TYPE=`/`POD_ID=`/`POD_URL=` block, query the status (whose own
diagnostics interleave here), and print `POD_STATUS=`. -/
def statusPod (env : Env) (cfg : DeployConfig) (podType : String) (verbose : Bool)
    (k : Nat) : OpResult :=
  let fr := findPodByType (env.podsSeq k) cfg.projectName podType verbose
  match fr.podId with
  | none =>
    ⟨false, k + 1, fr.out ++ (if verbose then ["❌ No " ++ podType ++ " pod found"] else []),
     [.getPods]⟩
  | some pid =>
    let so := getPodStatus (env.podsSeq (k + 1)) pid verbose
    ⟨true, k + 2,
     fr.out ++ ["POD_TYPE=" ++ podType, "POD_ID=" ++ pid, "POD_URL=" ++ normalizeUrl fr.podUrl]
       ++ so.2 ++ ["POD_STATUS=" ++ so.1],
     [.getPods, .getPods]⟩

/-! ## Concrete scenarios used to instantiate the theorems -/

/-- A baseline configuration with the built-in defaults. -/
def baseCfg : DeployConfig := { projectName := "proj", apiKey := "k" }

/-- A state whose listing holds one RUNNING pod of project `proj`, type
`main`, with a terminate call that succeeds. -/
def runningEnv : Env where
  podsSeq := fun _ => .ok [{ name := "proj-main-111", id := some "abc", desiredStatus := some "RUNNING" }]
  resumeRes := fun _ => .error "unused"
  stopRes := fun _ => .error "unused"
  createRes := fun _ => .error "unused"
  terminateRes := fun _ => .ok (.pyDict (some "abc"))
  gpusRes := .error "unused"
  gpuDetailRes := fun _ => .error "unused"

/-- A state whose listing holds one already-stopped pod. -/
def stoppedEnv : Env where
  podsSeq := fun _ => .ok [{ name := "proj-main-111", id := some "abc", desiredStatus := some "EXITED" }]
  resumeRes := fun _ => .error "unused"
  stopRes := fun _ => .error "unused"
  createRes := fun _ => .error "unused"
  terminateRes := fun _ => .error "unused"
  gpusRes := .error "unused"
  gpuDetailRes := fun _ => .error "unused"

/-- A state whose listing holds only a pod of a different project, so no
name carries the `proj-main-` naming-convention prefix. -/
def absentEnv : Env where
  podsSeq := fun _ => .ok [{ name := "otherproj-main-1", id := some "zzz", desiredStatus := some "RUNNING" }]
  resumeRes := fun _ => .error "unused"
  stopRes := fun _ => .error "unused"
  createRes := fun _ => .error "unused"
  terminateRes := fun _ => .error "unused"
  gpusRes := .error "unused"
  gpuDetailRes := fun _ => .error "unused"

/-- A state whose first listing query shows a pending pod and whose second
listing query raises, so the second status poll yields `Error`. -/
def pollEnv : Env where
  podsSeq := fun k =>
    if k = 0 then .ok [{ name := "proj-main-1", id := some "abc", desiredStatus := some "PENDING" }]
    else .error "boom"
  resumeRes := fun _ => .error "unused"
  stopRes := fun _ => .error "unused"
  createRes := fun _ => .error "unused"
  terminateRes := fun _ => .error "unused"
  gpusRes := .error "unused"
  gpuDetailRes := fun _ => .error "unused"

/-- A state offering one GPU (community spot 0.25) whose creation call
succeeds, used to observe the non-verbose deploy output. -/
def deployCexEnv : Env where
  podsSeq := fun _ => .ok []
  resumeRes := fun _ => .error "unused"
  stopRes := fun _ => .error "unused"
  createRes := fun _ => .ok (.pyDict (some "pod123"))
  terminateRes := fun _ => .error "unused"
  gpusRes := .ok [{ id := "gpu1" }]
  gpuDetailRes := fun i => .ok { id := i, displayName := some "RTX 3080", communitySpotPrice := some (1/4) }

/-- A state offering one affordable GPU whose creation call returns the
Python value `None` without raising. -/
def noneResultEnv : Env where
  podsSeq := fun _ => .ok []
  resumeRes := fun _ => .error "unused"
  stopRes := fun _ => .error "unused"
  createRes := fun _ => .ok .pyNone
  terminateRes := fun _ => .error "unused"
  gpusRes := .ok [{ id := "gpu1" }]
  gpuDetailRes := fun i => .ok { id := i, displayName := some "RTX 3080", communitySpotPrice := some (1/4) }

/-- The two GPU offerings of the spec's filtering example: community spot
prices 0.25 and 0.45. -/
def exampleGpus : List GpuRecord :=
  [{ id := "gpu1", displayName := some "A", communitySpotPrice := some (1/4) },
   { id := "gpu2", displayName := some "B", communitySpotPrice := some (9/20) }]

/-- A creation backend on which every attempt raises the no-instances
error. -/
def alwaysFailCreate : String → Except String PyVal :=
  fun _ => .error "There are no longer any instances available with the requested specifications."

/-- The ceiling 0.30 configuration of the spec's filtering example. -/
def exampleCfg : DeployConfig := { projectName := "proj", apiKey := "k", maxGpuPrice := 3/10 }

/-- A ceiling below every offered price. -/
def lowCeilingCfg : DeployConfig := { projectName := "proj", apiKey := "k", maxGpuPrice := 1/10 }

/-- The filesystem of the config-precedence example: one config file
setting `MAX_GPU_PRICE=0.50`. -/
def exampleFs : String → Option (List String) :=
  fun p => if p = "app.conf" then some ["MAX_GPU_PRICE=0.50"] else none

/-- A creation backend distinguishing an id-less dict result from a `None`
result. -/
def mixedCreate : String → Except String PyVal :=
  fun s => if s = "a" then .ok (.pyDict none) else .ok .pyNone

instance : IsTotal AffordableGpu (fun a b => a.price ≤ b.price) :=
  ⟨fun a b => le_total a.price b.price⟩

instance : IsTrans AffordableGpu (fun a b => a.price ≤ b.price) :=
  ⟨fun _ _ _ => le_trans⟩

/-! ## Helper lemmas -/

theorem applyKwargs_eq (ws : List (String × String)) (m : String → Option String) (k : String) :
    applyKwargs ws m k =
      match ws.reverse.find? (fun kv => kv.1 == k) with
      | some kv => some kv.2
      | none => m k := by
  induction ws generalizing m with
  | nil => rfl
  | cons kv rest ih =>
    show applyKwargs rest (fun k' => if k' = kv.1 then some kv.2 else m k') k = _
    rw [ih, List.reverse_cons, List.find?_append]
    cases h : rest.reverse.find? (fun x => x.1 == k) with
    | some kv' => rfl
    | none =>
      by_cases hk : kv.1 = k
      · simp [List.find?, hk, Option.or]
      · have hbeq : (kv.1 == k) = false := by simpa using hk
        have hne : ¬ (k = kv.1) := fun h' => hk h'.symm
        simp [List.find?, hbeq, hne, Option.or]

theorem setdefault_foldl_eq (ds : List (String × String)) (m : String → Option String) (k : String) :
    ds.foldl (fun acc kv => fun k' => if k' = kv.1 then some ((acc kv.1).getD kv.2) else acc k') m k =
      match m k with
      | some v => some v
      | none => (ds.find? (fun kv => kv.1 == k)).map Prod.snd := by
  induction ds generalizing m with
  | nil =>
    show m k = _
    cases m k <;> rfl
  | cons kv rest ih =>
    rw [List.foldl_cons, ih]
    by_cases hk : k = kv.1
    · rw [if_pos hk]
      have hbeq : (kv.1 == k) = true := by simpa using hk.symm
      cases hm : m k with
      | some v =>
        have : m kv.1 = some v := hk ▸ hm
        simp [this, hm]
      | none =>
        have : m kv.1 = none := hk ▸ hm
        simp [this, hm, List.find?, hbeq]
    · rw [if_neg hk]
      have hbeq : (kv.1 == k) = false := by simpa using fun h' => hk h'.symm
      cases hm : m k <;> simp [hm, List.find?, hbeq]

theorem applyDefaults_eq (m : String → Option String) (k : String) :
    applyDefaults m k =
      match m k with
      | some v => some v
      | none => (configDefaults.find? (fun kv => kv.1 == k)).map Prod.snd :=
  setdefault_foldl_eq configDefaults m k

/-! ## Claims about the configuration loader -/

/-- C8: for every configuration key the resolved value follows the
precedence defaults < config-file contents < explicit keyword overrides
(the last keyword occurrence winning, the file map as parsed); in the
spec's example, default 0.30 with a file value 0.50 and an explicit
override 1.00 resolves to 1.00, the file alone resolves to 0.50, and the
defaults alone to 0.30. -/
theorem C8_config_precedence :
    (∀ (fs : String → Option (List String)) (configFile : Option String)
        (kwargs : List (String × String)) (k : String),
      loadConfig fs configFile kwargs k =
        match kwargs.reverse.find? (fun kv => kv.1 == k) with
        | some kv => some kv.2
        | none =>
          match configFileMap fs configFile k with
          | some v => some v
          | none => (configDefaults.find? (fun kv => kv.1 == k)).map Prod.snd)
    ∧ loadConfig exampleFs (some "app.conf") [("MAX_GPU_PRICE", "1.00")] "MAX_GPU_PRICE" = some "1.00"
    ∧ loadConfig exampleFs (some "app.conf") [] "MAX_GPU_PRICE" = some "0.50"
    ∧ loadConfig exampleFs none [] "MAX_GPU_PRICE" = some "0.30" := by
  refine ⟨?_, ?_, ?_, ?_⟩
  · intro fs cf kwargs k
    simp only [loadConfig]
    rw [applyKwargs_eq, applyDefaults_eq]
  · with_unfolding_all decide
  · with_unfolding_all decide
  · with_unfolding_all decide

/-- C9: constructing the configuration with a config-file path that does
not exist raises no error and resolves every key exactly as if no config
file had been passed at all. -/
theorem C9_missing_config_file (fs : String → Option (List String)) (p : String)
    (kwargs : List (String × String)) (hp : fs p = none) (k : String) :
    loadConfig fs (some p) kwargs k = loadConfig fs none kwargs k := by
  unfold loadConfig configFileMap
  by_cases h : p = "" <;> simp [h, hp]

/-- Witness for C9 at a concrete missing path. -/
theorem C9_missing_config_file_witness :
    ((fun _ => none : String → Option (List String)) "missing.conf" = none)
    ∧ loadConfig (fun _ => none) (some "missing.conf") [("A", "1")] "A"
      = loadConfig (fun _ => none) none [("A", "1")] "A" :=
  ⟨rfl, C9_missing_config_file (fun _ => none) "missing.conf" [("A", "1")] rfl "A"⟩

/-! ## Claims about the effective-price computation -/

/-- C2: the effective minimum price of a GPU offering is its community
spot price whenever that is present (regardless of the secure price), is
the secure spot price when only that is present, and an offering with
neither price is excluded from the affordable-candidate set entirely. -/
theorem C2_price_preference :
    (∀ (g : GpuRecord) (p : Rat), g.communitySpotPrice = some p → effectiveMinPrice g = some p)
    ∧ (∀ g : GpuRecord, g.communitySpotPrice = none → effectiveMinPrice g = g.secureSpotPrice)
    ∧ (∀ (gs1 gs2 : List GpuRecord) (g : GpuRecord) (maxPrice : Rat),
        effectiveMinPrice g = none →
        affordableGpus (gs1 ++ g :: gs2) maxPrice = affordableGpus (gs1 ++ gs2) maxPrice) := by
  refine ⟨?_, ?_, ?_⟩
  · intro g p h
    simp [effectiveMinPrice, h]
  · intro g h
    simp [effectiveMinPrice, h]
  · intro gs1 gs2 g M h
    simp [affordableGpus, List.filterMap_append, List.filterMap_cons, h]

/-- Witness for C2: community 0.20 with secure 0.10 is evaluated at 0.20;
secure-only 0.10 is evaluated at 0.10; a priceless offering adds nothing
to the candidates. -/
theorem C2_price_preference_witness :
    effectiveMinPrice { id := "g", communitySpotPrice := some (1/5), secureSpotPrice := some (1/10) }
      = some (1/5)
    ∧ effectiveMinPrice { id := "h", secureSpotPrice := some (1/10) } = some (1/10)
    ∧ affordableGpus [{ id := "n" }] (3/10) = affordableGpus [] (3/10) := by
  refine ⟨C2_price_preference.1 _ (1/5) rfl, ?_, ?_⟩
  · exact C2_price_preference.2.1 { id := "h", secureSpotPrice := some (1/10) } rfl
  · have := C2_price_preference.2.2 [] [] { id := "n" } (3/10) rfl
    simpa using this

theorem findMatch_eq_none (pfx : String) (ps : List Pod)
    (h : ∀ p ∈ ps, p.name.startsWith pfx = false) : findMatch pfx ps = none := by
  induction ps with
  | nil => rfl
  | cons p rest ih =>
    have hp := h p (List.mem_cons_self p rest)
    simp only [findMatch, hp]
    simpa using ih fun q hq => h q (List.mem_cons_of_mem p hq)

theorem findMatch_eq_find? (pfx : String) (ps : List Pod)
    (h : ∀ p ∈ ps, p.name.startsWith pfx = true → strTruthy p.id = true) :
    findMatch pfx ps = ps.find? (fun q => q.name.startsWith pfx) := by
  induction ps with
  | nil => rfl
  | cons p rest ih =>
    by_cases hs : p.name.startsWith pfx = true
    · have ht := h p (List.mem_cons_self p rest) hs
      simp [findMatch, List.find?, hs, ht]
    · have hs' : p.name.startsWith pfx = false := by simpa using hs
      simp only [findMatch, List.find?, hs']
      simpa [hs'] using ih fun q hq hq' => h q (List.mem_cons_of_mem p hq) hq'

theorem findMatch_some (pfx : String) (ps : List Pod) (p : Pod)
    (h : findMatch pfx ps = some p) :
    p ∈ ps ∧ p.name.startsWith pfx = true ∧ strTruthy p.id = true := by
  induction ps with
  | nil => simp [findMatch] at h
  | cons q rest ih =>
    by_cases hc : q.name.startsWith pfx = true ∧ strTruthy q.id = true
    · simp only [findMatch, if_pos hc, Option.some.injEq] at h
      exact h ▸ ⟨List.mem_cons_self q rest, hc.1, hc.2⟩
    · simp only [findMatch, if_neg hc] at h
      obtain ⟨hm, h1, h2⟩ := ih h
      exact ⟨List.mem_cons_of_mem q hm, h1, h2⟩

theorem findPodByType_out_nonverbose (ps : List Pod) (projectName podType : String) :
    (findPodByType (.ok ps) projectName podType false).out = [] := by
  cases hm : findMatch (podNamePfx projectName podType) ps <;>
    simp [findPodByType, hm]

theorem findPodByType_ok_of_some (e : Except String (List Pod)) (projectName podType : String)
    (verbose : Bool) (pid : String)
    (h : (findPodByType e projectName podType verbose).podId = some pid) :
    ∃ ps, e = .ok ps := by
  cases e with
  | error msg => simp [findPodByType] at h
  | ok ps => exact ⟨ps, rfl⟩

theorem findPodByType_podUrl (e : Except String (List Pod)) (projectName podType : String)
    (verbose : Bool) (pid : String)
    (h : (findPodByType e projectName podType verbose).podId = some pid) :
    (findPodByType e projectName podType verbose).podUrl
      = some (pid ++ "-5000.proxy.runpod.net") := by
  cases e with
  | error msg => simp [findPodByType] at h
  | ok ps =>
    cases hm : findMatch (podNamePfx projectName podType) ps with
    | none => simp [findPodByType, hm] at h
    | some p =>
      simp only [findPodByType, hm] at h ⊢
      rw [Option.some.injEq] at h
      rw [h]

/-! ## Claims about pod discovery -/

/-- C3: `_find_pod_by_type` returns `(none, none)` when the listing call
raises and when no pod name carries the exact `{project}-{podType}-`
naming prefix; when every prefix-matching pod carries a truthy id it
returns the id of the first prefix-matching pod in listing order together
with the derived `{id}-5000.proxy.runpod.net` URL; and any id it returns
always belongs to a pod whose name carries the exact prefix, so pods of
other projects or types are never returned. -/
theorem C3_find_pod_by_type (projectName podType : String) (verbose : Bool) :
    (∀ e : String,
      (findPodByType (.error e) projectName podType verbose).podId = none
      ∧ (findPodByType (.error e) projectName podType verbose).podUrl = none)
    ∧ (∀ ps : List Pod,
        (∀ p ∈ ps, p.name.startsWith (podNamePfx projectName podType) = false) →
        (findPodByType (.ok ps) projectName podType verbose).podId = none
        ∧ (findPodByType (.ok ps) projectName podType verbose).podUrl = none)
    ∧ (∀ ps : List Pod,
        (∀ p ∈ ps, p.name.startsWith (podNamePfx projectName podType) = true →
          strTruthy p.id = true) →
        ∀ p : Pod,
          ps.find? (fun q => q.name.startsWith (podNamePfx projectName podType)) = some p →
          (findPodByType (.ok ps) projectName podType verbose).podId = p.id
          ∧ (findPodByType (.ok ps) projectName podType verbose).podUrl
            = some (p.id.getD "" ++ "-5000.proxy.runpod.net"))
    ∧ (∀ (ps : List Pod) (pid : String),
        (findPodByType (.ok ps) projectName podType verbose).podId = some pid →
        ∃ p ∈ ps, p.name.startsWith (podNamePfx projectName podType) = true
          ∧ p.id = some pid ∧ pid ≠ "") := by
  refine ⟨fun e => ⟨rfl, rfl⟩, ?_, ?_, ?_⟩
  · intro ps h
    have hm := findMatch_eq_none (podNamePfx projectName podType) ps h
    exact ⟨by simp [findPodByType, hm], by simp [findPodByType, hm]⟩
  · intro ps h p hfind
    have hm := (findMatch_eq_find? (podNamePfx projectName podType) ps h).trans hfind
    have hp := findMatch_some _ _ _ hm
    cases hid : p.id with
    | none => rw [hid] at hp; simp [strTruthy] at hp
    | some s =>
      constructor
      · simp [findPodByType, hm, hid]
      · simp [findPodByType, hm, hid]
  · intro ps pid h
    cases hm : findMatch (podNamePfx projectName podType) ps with
    | none => simp [findPodByType, hm] at h
    | some p =>
      simp only [findPodByType, hm, Option.some.injEq] at h
      obtain ⟨hmem, hs, ht⟩ := findMatch_some _ _ _ hm
      cases hid : p.id with
      | none => rw [hid] at ht; simp [strTruthy] at ht
      | some s =>
        rw [hid] at ht h
        simp only [strTruthy, bne_iff_ne, ne_eq] at ht
        refine ⟨p, hmem, hs, ?_, ?_⟩
        · rw [hid]; simp [← h]
        · simpa [← h] using ht

/-- Witness for C3: with a listing holding an overlapping-substring name
(`proj-mainx-7`), another project's pod, and a genuine `proj-main-3` pod,
the genuine pod's id and derived URL are returned. -/
theorem C3_find_pod_by_type_witness :
    (findPodByType
      (.ok [{ name := "proj-mainx-7", id := some "a" },
            { name := "other-main-2", id := some "b" },
            { name := "proj-main-3", id := some "c" }]) "proj" "main" false).podId = some "c"
    ∧ (findPodByType
      (.ok [{ name := "proj-mainx-7", id := some "a" },
            { name := "other-main-2", id := some "b" },
            { name := "proj-main-3", id := some "c" }]) "proj" "main" false).podUrl
      = some "c-5000.proxy.runpod.net" := by
  have h := (C3_find_pod_by_type "proj" "main" false).2.2.1
    [{ name := "proj-mainx-7", id := some "a" },
     { name := "other-main-2", id := some "b" },
     { name := "proj-main-3", id := some "c" }]
    (by with_unfolding_all decide)
    { name := "proj-main-3", id := some "c" }
    (by with_unfolding_all decide)
  exact ⟨h.1, h.2.trans (by with_unfolding_all decide)⟩

/-! ## Claims about stop/terminate on an absent pod and start on a running pod -/

/-- C5: in every state whose listing holds no pod with the
`{project}-{podType}-` naming prefix, `stop_pod` succeeds while issuing
only the read-only listing query (no stop call), and `terminate_pod` on
the same state fails (also issuing only the listing query): stop is
idempotent over absence and terminate is not. -/
theorem C5_stop_terminate_absent (env : Env) (cfg : DeployConfig) (podType : String)
    (verbose : Bool) (k : Nat) (ps : List Pod)
    (hps : env.podsSeq k = .ok ps)
    (hno : ∀ p ∈ ps, p.name.startsWith (podNamePfx cfg.projectName podType) = false) :
    (stopPod env cfg podType verbose k).ok = true
    ∧ (stopPod env cfg podType verbose k).fx = [Effect.getPods]
    ∧ (terminatePod env cfg podType verbose k).ok = false
    ∧ (terminatePod env cfg podType verbose k).fx = [Effect.getPods] := by
  have hm := findMatch_eq_none (podNamePfx cfg.projectName podType) ps hno
  refine ⟨?_, ?_, ?_, ?_⟩ <;>
    simp [stopPod, terminatePod, findPodByType, hps, hm]

/-- Witness for C5 on a state holding only another project's pod. -/
theorem C5_stop_terminate_absent_witness :
    absentEnv.podsSeq 0 = .ok [{ name := "otherproj-main-1", id := some "zzz", desiredStatus := some "RUNNING" }]
    ∧ (stopPod absentEnv baseCfg "main" false 0).ok = true
    ∧ (stopPod absentEnv baseCfg "main" false 0).fx = [Effect.getPods]
    ∧ (terminatePod absentEnv baseCfg "main" false 0).ok = false
    ∧ (terminatePod absentEnv baseCfg "main" false 0).fx = [Effect.getPods] := by
  have h := C5_stop_terminate_absent absentEnv baseCfg "main" false 0
    [{ name := "otherproj-main-1", id := some "zzz", desiredStatus := some "RUNNING" }]
    rfl (by with_unfolding_all decide)
  exact ⟨rfl, h.1, h.2.1, h.2.2.1, h.2.2.2⟩

/-- C6: in every state where discovery finds a pod and its status is
`RUNNING`, `start_pod` succeeds immediately; its provider-call trace is
exactly the two read-only listing queries, so no resume, deploy-create,
terminate or any other state-changing call is issued. -/
theorem C6_start_running_no_mutation (env : Env) (cfg : DeployConfig) (podType : String)
    (timestamp : Nat) (deployNewIfNeeded verbose : Bool) (k : Nat) (pid : String)
    (hfind : (findPodByType (env.podsSeq k) cfg.projectName podType verbose).podId = some pid)
    (hst : (getPodStatus (env.podsSeq (k + 1)) pid verbose).1 = "RUNNING") :
    (startPod env cfg podType timestamp deployNewIfNeeded verbose k).ok = true
    ∧ (startPod env cfg podType timestamp deployNewIfNeeded verbose k).fx
      = [Effect.getPods, Effect.getPods]
    ∧ (startPod env cfg podType timestamp deployNewIfNeeded verbose k).fx.filter Effect.mutating
      = [] := by
  refine ⟨?_, ?_, ?_⟩ <;>
    simp [startPod, hfind, hst, Effect.mutating, List.filter]

/-- Witness for C6 on a state holding a RUNNING pod of the project. -/
theorem C6_start_running_no_mutation_witness :
    (findPodByType (runningEnv.podsSeq 0) baseCfg.projectName "main" false).podId = some "abc"
    ∧ (getPodStatus (runningEnv.podsSeq 1) "abc" false).1 = "RUNNING"
    ∧ (startPod runningEnv baseCfg "main" 0 false false 0).ok = true
    ∧ (startPod runningEnv baseCfg "main" 0 false false 0).fx.filter Effect.mutating = [] := by
  have h := C6_start_running_no_mutation runningEnv baseCfg "main" 0 false false 0 "abc"
    (by with_unfolding_all decide) (by with_unfolding_all decide)
  exact ⟨by with_unfolding_all decide, by with_unfolding_all decide, h.1, h.2.2⟩

/-! ## Lemmas about the deploy creation loop -/

theorem deployTry_ok (create : String → Except String PyVal) (verbose : Bool) (n : Nat) :
    ∀ (i : Nat) (l : List AffordableGpu),
      (deployTry create verbose n i l).1 = l.any (succeedsB create) := by
  intro i l
  induction l generalizing i with
  | nil => rfl
  | cons g rest ih =>
    simp only [deployTry, List.any_cons]
    cases hc : create g.id with
    | error msg => simp [succeedsB, hc, ih]
    | ok v =>
      by_cases ht : podIdTruthy (extractPodId v) = true
      · simp [succeedsB, hc, ht]
      · have ht' : podIdTruthy (extractPodId v) = false := by simpa using ht
        simp [succeedsB, hc, ht', ih]

theorem deployTry_fx (create : String → Except String PyVal) (verbose : Bool) (n : Nat) :
    ∀ (i : Nat) (l : List AffordableGpu),
      (deployTry create verbose n i l).2.2
        = ((l.takeWhile fun a => !succeedsB create a)
            ++ (l.dropWhile fun a => !succeedsB create a).take 1).map
            (fun a => Effect.createPod a.id) := by
  intro i l
  induction l generalizing i with
  | nil => rfl
  | cons g rest ih =>
    simp only [deployTry, List.takeWhile_cons, List.dropWhile_cons]
    cases hc : create g.id with
    | error msg =>
      have hs : succeedsB create g = false := by simp [succeedsB, hc]
      simp [hs, ih]
    | ok v =>
      by_cases ht : podIdTruthy (extractPodId v) = true
      · have hs : succeedsB create g = true := by simp [succeedsB, hc, ht]
        simp [hs, ht]
      · have ht' : podIdTruthy (extractPodId v) = false := by simpa using ht
        have hs : succeedsB create g = false := by simp [succeedsB, hc, ht']
        simp [hs, ht', ih]

theorem mem_affordableGpus_iff (gs : List GpuRecord) (M : Rat) (a : AffordableGpu) :
    a ∈ affordableGpus gs M ↔
      ∃ g ∈ gs, ∃ p, effectiveMinPrice g = some p ∧ p ≤ M ∧ a = mkAffordable g p := by
  simp only [affordableGpus, List.mem_filterMap]
  constructor
  · rintro ⟨g, hg, hf⟩
    cases he : effectiveMinPrice g with
    | none => simp only [he] at hf; exact absurd hf (by simp)
    | some p =>
      simp only [he] at hf
      by_cases hp : p ≤ M
      · rw [if_pos hp, Option.some.injEq] at hf
        exact ⟨g, hg, p, he, hp, hf.symm⟩
      · rw [if_neg hp] at hf; simp at hf
  · rintro ⟨g, hg, p, he, hp, rfl⟩
    refine ⟨g, hg, ?_⟩
    simp only [he]
    rw [if_pos hp]

/-! ## Claim about deploy candidate filtering, ordering and fallback -/

/-- C1: the affordable-candidate set holds exactly the offerings whose
effective price exists and is at or below the ceiling; an empty candidate
set fails the deploy at once with no creation attempt; the creation-call
trace is exactly the price-sorted candidate list up to and including the
first success (so creation is attempted in ascending order of effective
price, stops at the first success, and an above-ceiling offering is never
attempted); and the operation succeeds exactly when some candidate's
attempt succeeds — it fails overall precisely when every candidate fails. -/
theorem C1_deploy_filter_order (cfg : DeployConfig) (create : String → Except String PyVal)
    (verbose : Bool) (gs : List GpuRecord) (podType : String) (timestamp : Nat) :
    (∀ a, a ∈ affordableGpus gs cfg.maxGpuPrice ↔
      ∃ g ∈ gs, ∃ p, effectiveMinPrice g = some p ∧ p ≤ cfg.maxGpuPrice ∧ a = mkAffordable g p)
    ∧ (affordableGpus gs cfg.maxGpuPrice = [] →
        (deployWithGpus cfg create verbose gs podType timestamp).ok = false
        ∧ (deployWithGpus cfg create verbose gs podType timestamp).fx = [])
    ∧ (deployWithGpus cfg create verbose gs podType timestamp).fx
      = (((sortByPrice (affordableGpus gs cfg.maxGpuPrice)).takeWhile
            fun a => !succeedsB create a)
          ++ ((sortByPrice (affordableGpus gs cfg.maxGpuPrice)).dropWhile
            fun a => !succeedsB create a).take 1).map (fun a => Effect.createPod a.id)
    ∧ ((deployWithGpus cfg create verbose gs podType timestamp).ok = true ↔
        ∃ a ∈ affordableGpus gs cfg.maxGpuPrice, succeedsB create a = true)
    ∧ (sortByPrice (affordableGpus gs cfg.maxGpuPrice)).Sorted (fun a b => a.price ≤ b.price)
    ∧ (sortByPrice (affordableGpus gs cfg.maxGpuPrice)).Perm (affordableGpus gs cfg.maxGpuPrice) := by
  have hperm := List.perm_insertionSort (fun a b : AffordableGpu => a.price ≤ b.price)
    (affordableGpus gs cfg.maxGpuPrice)
  refine ⟨mem_affordableGpus_iff gs cfg.maxGpuPrice, ?_, ?_, ?_,
    List.sorted_insertionSort _ _, hperm⟩
  · intro h
    constructor <;> simp [deployWithGpus, h]
  · by_cases h : affordableGpus gs cfg.maxGpuPrice = []
    · simp [deployWithGpus, h, sortByPrice]
    · simp [deployWithGpus, h, deployTry_fx]
  · by_cases h : affordableGpus gs cfg.maxGpuPrice = []
    · simp [deployWithGpus, h]
    · have hok : (deployWithGpus cfg create verbose gs podType timestamp).ok
          = (sortByPrice (affordableGpus gs cfg.maxGpuPrice)).any (succeedsB create) := by
        simp [deployWithGpus, h, deployTry_ok]
      rw [hok, List.any_eq_true]
      constructor
      · rintro ⟨a, ha, hs⟩
        exact ⟨a, hperm.mem_iff.mp ha, hs⟩
      · rintro ⟨a, ha, hs⟩
        exact ⟨a, hperm.mem_iff.mpr ha, hs⟩

/-- Witness for C1 at the spec's example: prices 0.25 and 0.45 with
ceiling 0.30 and a creation backend that always fails — only the 0.25 GPU
is attempted, the 0.45 GPU is filtered out, and the deploy fails overall;
with a ceiling below every price the deploy fails with no attempt. -/
theorem C1_deploy_filter_order_witness :
    (deployWithGpus exampleCfg alwaysFailCreate false exampleGpus "main" 0).fx
      = [Effect.createPod "gpu1"]
    ∧ (deployWithGpus exampleCfg alwaysFailCreate false exampleGpus "main" 0).ok = false
    ∧ (deployWithGpus lowCeilingCfg alwaysFailCreate false exampleGpus "main" 0).ok = false
    ∧ (deployWithGpus lowCeilingCfg alwaysFailCreate false exampleGpus "main" 0).fx = [] := by
  have h1 := C1_deploy_filter_order exampleCfg alwaysFailCreate false exampleGpus "main" 0
  have h2 := C1_deploy_filter_order lowCeilingCfg alwaysFailCreate false exampleGpus "main" 0
  have he : affordableGpus exampleGpus lowCeilingCfg.maxGpuPrice = [] := by
    with_unfolding_all decide
  have hno : ¬ ∃ a ∈ affordableGpus exampleGpus exampleCfg.maxGpuPrice,
      succeedsB alwaysFailCreate a = true := by
    with_unfolding_all decide
  refine ⟨h1.2.2.1.trans (by with_unfolding_all decide), ?_, (h2.2.1 he).1, (h2.2.1 he).2⟩
  cases hok : (deployWithGpus exampleCfg alwaysFailCreate false exampleGpus "main" 0).ok
  · rfl
  · exact absurd (h1.2.2.2.1.mp hok) hno

/-! ## Claim about creation results without a pod id -/

/-- C10 counterexample: a creation call that returns Python `None`
without raising is not treated as a per-GPU failure — `str(None)` is the
truthy string `None`, so the deploy reports overall success and prints
`None` as the pod id, where the claim requires the loop to continue and
the operation (with this sole candidate) to fail. -/
theorem C10_none_result_cex :
    (deployPod noneResultEnv exampleCfg "main" 0 false 0).ok = true
    ∧ (deployPod noneResultEnv exampleCfg "main" 0 false 0).out.getLast? = some "None" := by
  constructor <;> with_unfolding_all decide

/-- C10 amended: a creation call that returns a dict without a truthy
`'id'` entry is treated exactly like a per-GPU creation failure (the loop
moves to the next candidate, recording the attempt); but a non-dict
result is coerced with `str()`, so a falsy result such as `None` becomes
the truthy string `None` and is reported as success; overall, the loop
succeeds exactly when some attempt yields a truthy extracted pod id. -/
theorem C10_no_id_result (create : String → Except String PyVal) (verbose : Bool)
    (n i : Nat) :
    (∀ (g : AffordableGpu) (rest : List AffordableGpu) (d : Option String),
      create g.id = .ok (.pyDict d) → podIdTruthy d = false →
      (deployTry create verbose n i (g :: rest)).1 = (deployTry create verbose n (i + 1) rest).1
      ∧ (deployTry create verbose n i (g :: rest)).2.2
        = Effect.createPod g.id :: (deployTry create verbose n (i + 1) rest).2.2)
    ∧ (∀ (g : AffordableGpu) (rest : List AffordableGpu),
      create g.id = .ok .pyNone →
      (deployTry create verbose n i (g :: rest)).1 = true)
    ∧ (∀ l : List AffordableGpu,
      (deployTry create verbose n i l).1 = l.any (succeedsB create)) := by
  refine ⟨?_, ?_, fun l => deployTry_ok create verbose n i l⟩
  · intro g rest d hc hd
    have hx : extractPodId (.pyDict d) = d := rfl
    constructor <;> simp [deployTry, hc, hx, hd]
  · intro g rest hc
    have ht : podIdTruthy (extractPodId .pyNone) = true := by with_unfolding_all decide
    simp [deployTry, hc, ht]

/-- Witness for C10 amended: an id-less dict result moves the loop on to
the next candidate (whose `None` result is then coerced to success), and
both attempts are recorded. -/
theorem C10_no_id_result_witness :
    (deployTry mixedCreate false 2 0
      [{ id := "a", name := "A", price := 1/4, communitySpot := some (1/4), secureSpot := none },
       { id := "b", name := "B", price := 9/20, communitySpot := some (9/20), secureSpot := none }]).1 = true
    ∧ (deployTry mixedCreate false 2 0
      [{ id := "a", name := "A", price := 1/4, communitySpot := some (1/4), secureSpot := none },
       { id := "b", name := "B", price := 9/20, communitySpot := some (9/20), secureSpot := none }]).2.2
      = [Effect.createPod "a", Effect.createPod "b"] := by
  have h1 := (C10_no_id_result mixedCreate false 2 0).1
    { id := "a", name := "A", price := 1/4, communitySpot := some (1/4), secureSpot := none }
    [{ id := "b", name := "B", price := 9/20, communitySpot := some (9/20), secureSpot := none }]
    none (by with_unfolding_all rfl) rfl
  have h2 := (C10_no_id_result mixedCreate false 2 1).2.1
    { id := "b", name := "B", price := 9/20, communitySpot := some (9/20), secureSpot := none }
    [] (by with_unfolding_all rfl)
  constructor
  · exact h1.1.trans h2
  · rw [h1.2]
    with_unfolding_all decide

/-! ## Claim about the single-line non-verbose output contract -/

/-- C4 counterexample: a successful non-verbose deploy prints ten lines
(the unconditional GPU pricing table, the filter banner and the pod id),
not exactly one machine-parsable line. -/
theorem C4_single_line_cex :
    (deployPod deployCexEnv exampleCfg "main" 0 false 0).ok = true
    ∧ (deployPod deployCexEnv exampleCfg "main" 0 false 0).out.length = 10
    ∧ ¬ (deployPod deployCexEnv exampleCfg "main" 0 false 0).out.length = 1 := by
  refine ⟨?_, ?_, ?_⟩ <;> with_unfolding_all decide

theorem getPodStatus_found (ps : List Pod) (pid st : String)
    (h : statusLookup pid ps = .found st) :
    getPodStatus (.ok ps) pid false = (st, []) := by
  simp [getPodStatus, h]

/-- C4 amended: in non-verbose mode the machine-parsable output holds on
the single-phase paths — terminate on a found pod with a successful
delete prints exactly `TERMINATED`; stop on an already-stopped pod prints
exactly the stopped status word; start on an already-`RUNNING` pod prints
exactly `RUNNING`; status on a found pod with a listed status prints
exactly the four-line `POD_TYPE=`/`POD_ID=`/`POD_URL=`/`POD_STATUS=`
block — but deploy always prints its GPU pricing table in addition to any
machine-parsable line whenever the GPU listing succeeds, so its output is
more than one line. -/
theorem C4_machine_output :
    (∀ (env : Env) (cfg : DeployConfig) (podType : String) (k : Nat) (pid : String) (r : PyVal),
      (findPodByType (env.podsSeq k) cfg.projectName podType false).podId = some pid →
      env.terminateRes pid = .ok r →
      (terminatePod env cfg podType false k).ok = true
      ∧ (terminatePod env cfg podType false k).out = ["TERMINATED"])
    ∧ (∀ (env : Env) (cfg : DeployConfig) (podType : String) (k : Nat) (pid : String)
        (ps : List Pod) (st : String),
      (findPodByType (env.podsSeq k) cfg.projectName podType false).podId = some pid →
      env.podsSeq (k + 1) = .ok ps →
      statusLookup pid ps = .found st →
      st ∈ (["EXITED", "STOPPED"] : List String) →
      (stopPod env cfg podType false k).ok = true
      ∧ (stopPod env cfg podType false k).out = [st])
    ∧ (∀ (env : Env) (cfg : DeployConfig) (podType : String) (timestamp : Nat)
        (dn : Bool) (k : Nat) (pid : String) (ps : List Pod),
      (findPodByType (env.podsSeq k) cfg.projectName podType false).podId = some pid →
      env.podsSeq (k + 1) = .ok ps →
      statusLookup pid ps = .found "RUNNING" →
      (startPod env cfg podType timestamp dn false k).ok = true
      ∧ (startPod env cfg podType timestamp dn false k).out = ["RUNNING"])
    ∧ (∀ (env : Env) (cfg : DeployConfig) (podType : String) (k : Nat) (pid : String)
        (ps : List Pod) (st : String),
      (findPodByType (env.podsSeq k) cfg.projectName podType false).podId = some pid →
      env.podsSeq (k + 1) = .ok ps →
      statusLookup pid ps = .found st →
      (statusPod env cfg podType false k).ok = true
      ∧ (statusPod env cfg podType false k).out
        = ["POD_TYPE=" ++ podType, "POD_ID=" ++ pid,
           "POD_URL=" ++ normalizeUrl (some (pid ++ "-5000.proxy.runpod.net")),
           "POD_STATUS=" ++ st])
    ∧ (∀ (env : Env) (cfg : DeployConfig) (podType : String) (timestamp k : Nat)
        (basics : List GpuRecord),
      env.gpusRes = .ok basics →
      2 ≤ (deployPod env cfg podType timestamp false k).out.length) := by
  refine ⟨?_, ?_, ?_, ?_, ?_⟩
  · intro env cfg podType k pid r hfind hterm
    obtain ⟨ps, hps⟩ := findPodByType_ok_of_some _ _ _ _ _ hfind
    rw [hps] at hfind
    have hout := findPodByType_out_nonverbose ps cfg.projectName podType
    constructor <;> simp [terminatePod, hps, hfind, hout, hterm]
  · intro env cfg podType k pid ps st hfind hps2 hst hmem
    obtain ⟨ps1, hps1⟩ := findPodByType_ok_of_some _ _ _ _ _ hfind
    rw [hps1] at hfind
    have hout := findPodByType_out_nonverbose ps1 cfg.projectName podType
    have hgs := getPodStatus_found ps pid st hst
    constructor <;> simp [stopPod, hps1, hfind, hout, hps2, hgs, hmem]
  · intro env cfg podType timestamp dn k pid ps hfind hps2 hst
    obtain ⟨ps1, hps1⟩ := findPodByType_ok_of_some _ _ _ _ _ hfind
    rw [hps1] at hfind
    have hout := findPodByType_out_nonverbose ps1 cfg.projectName podType
    have hgs := getPodStatus_found ps pid "RUNNING" hst
    constructor <;> simp [startPod, hps1, hfind, hout, hps2, hgs]
  · intro env cfg podType k pid ps st hfind hps2 hst
    obtain ⟨ps1, hps1⟩ := findPodByType_ok_of_some _ _ _ _ _ hfind
    rw [hps1] at hfind
    have hout := findPodByType_out_nonverbose ps1 cfg.projectName podType
    have hurl := findPodByType_podUrl (.ok ps1) cfg.projectName podType false pid hfind
    have hgs := getPodStatus_found ps pid st hst
    constructor <;> simp [statusPod, hps1, hfind, hout, hurl, hps2, hgs]
  · intro env cfg podType timestamp k basics hg
    simp only [deployPod, hg, Bool.false_eq_true, if_false]
    simp [List.length_append]

/-- Witness for C4 amended on concrete states: each single-phase action
prints its one machine-parsable line (or the status block), while the
successful deploy prints more than one line. -/
theorem C4_machine_output_witness :
    (terminatePod runningEnv baseCfg "main" false 0).out = ["TERMINATED"]
    ∧ (stopPod stoppedEnv baseCfg "main" false 0).out = ["EXITED"]
    ∧ (startPod runningEnv baseCfg "main" 0 false false 0).out = ["RUNNING"]
    ∧ (statusPod runningEnv baseCfg "main" false 0).out
      = ["POD_TYPE=main", "POD_ID=abc", "POD_URL=https://abc-5000.proxy.runpod.net",
         "POD_STATUS=RUNNING"]
    ∧ 2 ≤ (deployPod deployCexEnv baseCfg "main" 0 false 0).out.length := by
  have ht := C4_machine_output.1 runningEnv baseCfg "main" 0 "abc" (.pyDict (some "abc"))
    (by with_unfolding_all decide) rfl
  have hs := C4_machine_output.2.1 stoppedEnv baseCfg "main" 0 "abc"
    [{ name := "proj-main-111", id := some "abc", desiredStatus := some "EXITED" }] "EXITED"
    (by with_unfolding_all decide) rfl (by with_unfolding_all decide)
    (by with_unfolding_all decide)
  have hr := C4_machine_output.2.2.1 runningEnv baseCfg "main" 0 false 0 "abc"
    [{ name := "proj-main-111", id := some "abc", desiredStatus := some "RUNNING" }]
    (by with_unfolding_all decide) rfl (by with_unfolding_all decide)
  have hst := C4_machine_output.2.2.2.1 runningEnv baseCfg "main" 0 "abc"
    [{ name := "proj-main-111", id := some "abc", desiredStatus := some "RUNNING" }] "RUNNING"
    (by with_unfolding_all decide) rfl (by with_unfolding_all decide)
  have hd := C4_machine_output.2.2.2.2 deployCexEnv baseCfg "main" 0 0 [{ id := "gpu1" }] rfl
  exact ⟨ht.2, hs.2, hr.2, hst.2.trans (by with_unfolding_all decide), hd⟩

/-! ## Lemmas and claim about the status wait loop -/

theorem waitForStatus_no_decision (env : Env) (pid : String) (targets : List String)
    (verbose : Bool) (timeout : Nat) :
    ∀ (d k elapsed : Nat), timeout - elapsed = d →
    (∀ i, i < (d + 4) / 5 →
      (getPodStatus (env.podsSeq (k + i)) pid verbose).1 ∉ targets
      ∧ (getPodStatus (env.podsSeq (k + i)) pid verbose).1 ∉ (["Error", "NOT_FOUND"] : List String)) →
    (waitForStatus env pid targets verbose timeout k elapsed).1 = false
    ∧ (waitForStatus env pid targets verbose timeout k elapsed).2.1 = k + (d + 4) / 5 := by
  intro d
  induction d using Nat.strong_induction_on with
  | _ d ih =>
    intro k elapsed hd h
    rw [waitForStatus]
    by_cases hlt : elapsed < timeout
    · rw [if_pos hlt]
      dsimp only
      have hB : 0 < (d + 4) / 5 := by omega
      have h0 := h 0 hB
      rw [Nat.add_zero] at h0
      rw [if_neg h0.1, if_neg h0.2]
      dsimp only
      have hrec := ih (d - 5) (by omega) (k + 1) (elapsed + 5) (by omega)
        (fun i hi => by
          have h' := h (i + 1) (by omega)
          rwa [show k + (i + 1) = k + 1 + i by omega] at h')
      refine ⟨hrec.1, ?_⟩
      rw [show k + (d + 4) / 5 = k + 1 + (d - 5 + 4) / 5 by omega]
      exact hrec.2
    · rw [if_neg hlt]
      exact ⟨rfl, by dsimp only; omega⟩

theorem waitForStatus_first_decision (env : Env) (pid : String) (targets : List String)
    (verbose : Bool) (timeout : Nat) :
    ∀ (d k elapsed : Nat), timeout - elapsed = d →
    ∀ j, j < (d + 4) / 5 →
    (∀ i, i < j → (getPodStatus (env.podsSeq (k + i)) pid verbose).1 ∉ targets
      ∧ (getPodStatus (env.podsSeq (k + i)) pid verbose).1 ∉ (["Error", "NOT_FOUND"] : List String)) →
    (((getPodStatus (env.podsSeq (k + j)) pid verbose).1 ∈ targets →
      (waitForStatus env pid targets verbose timeout k elapsed).1 = true
      ∧ (waitForStatus env pid targets verbose timeout k elapsed).2.1 = k + j + 1)
    ∧ ((getPodStatus (env.podsSeq (k + j)) pid verbose).1 ∉ targets →
      (getPodStatus (env.podsSeq (k + j)) pid verbose).1 ∈ (["Error", "NOT_FOUND"] : List String) →
      (waitForStatus env pid targets verbose timeout k elapsed).1 = false
      ∧ (waitForStatus env pid targets verbose timeout k elapsed).2.1 = k + j + 1)) := by
  intro d
  induction d using Nat.strong_induction_on with
  | _ d ih =>
    intro k elapsed hd j hj hprev
    have hlt : elapsed < timeout := by omega
    rw [waitForStatus, if_pos hlt]
    dsimp only
    cases j with
    | zero =>
      constructor
      · intro hmem
        rw [Nat.add_zero] at hmem
        rw [if_pos hmem]
        exact ⟨rfl, rfl⟩
      · intro hnot hterm
        rw [Nat.add_zero] at hnot hterm
        rw [if_neg hnot, if_pos hterm]
        exact ⟨rfl, rfl⟩
    | succ j' =>
      have h0 := hprev 0 (by omega)
      rw [Nat.add_zero] at h0
      rw [if_neg h0.1, if_neg h0.2]
      dsimp only
      have hrec := ih (d - 5) (by omega) (k + 1) (elapsed + 5) (by omega) j' (by omega)
        (fun i hi => by
          have h' := hprev (i + 1) (by omega)
          rwa [show k + (i + 1) = k + 1 + i by omega] at h')
      constructor
      · intro hmem
        have hmem' : (getPodStatus (env.podsSeq (k + 1 + j')) pid verbose).1 ∈ targets := by
          rwa [show k + 1 + j' = k + (j' + 1) by omega]
        have hr := hrec.1 hmem'
        exact ⟨hr.1, by rw [show k + (j' + 1) + 1 = k + 1 + j' + 1 by omega]; exact hr.2⟩
      · intro hnot hterm
        have hnot' : (getPodStatus (env.podsSeq (k + 1 + j')) pid verbose).1 ∉ targets := by
          rwa [show k + 1 + j' = k + (j' + 1) by omega]
        have hterm' : (getPodStatus (env.podsSeq (k + 1 + j')) pid verbose).1
            ∈ (["Error", "NOT_FOUND"] : List String) := by
          rwa [show k + 1 + j' = k + (j' + 1) by omega]
        have hr := hrec.2 hnot' hterm'
        exact ⟨hr.1, by rw [show k + (j' + 1) + 1 = k + 1 + j' + 1 by omega]; exact hr.2⟩

/-- C7: `wait_for_status` polls at most `⌈timeout/5⌉` times (one poll per
5-second step of the explicit elapsed-time clock). If the first deciding
poll `j` finds the status in the target set, the loop returns success
having made exactly `j+1` polls; if it finds `Error` or `NOT_FOUND` (and
not a target), the loop returns failure immediately after exactly `j+1`
polls — it never keeps polling after observing `Error`/`NOT_FOUND` and
does not wait out the remaining timeout; and when no poll within the
budget decides, the loop exhausts the `⌈timeout/5⌉` polls and returns
failure. The poll count is observed through the get-pods query counter,
which starts at `k`. -/
theorem C7_wait_polling (env : Env) (pid : String) (targets : List String)
    (verbose : Bool) (timeout k : Nat) :
    (∀ j, j < (timeout + 4) / 5 →
      (∀ i, i < j → (getPodStatus (env.podsSeq (k + i)) pid verbose).1 ∉ targets
        ∧ (getPodStatus (env.podsSeq (k + i)) pid verbose).1 ∉ (["Error", "NOT_FOUND"] : List String)) →
      (((getPodStatus (env.podsSeq (k + j)) pid verbose).1 ∈ targets →
        (waitForStatus env pid targets verbose timeout k 0).1 = true
        ∧ (waitForStatus env pid targets verbose timeout k 0).2.1 = k + j + 1)
      ∧ ((getPodStatus (env.podsSeq (k + j)) pid verbose).1 ∉ targets →
        (getPodStatus (env.podsSeq (k + j)) pid verbose).1 ∈ (["Error", "NOT_FOUND"] : List String) →
        (waitForStatus env pid targets verbose timeout k 0).1 = false
        ∧ (waitForStatus env pid targets verbose timeout k 0).2.1 = k + j + 1)))
    ∧ ((∀ i, i < (timeout + 4) / 5 →
        (getPodStatus (env.podsSeq (k + i)) pid verbose).1 ∉ targets
        ∧ (getPodStatus (env.podsSeq (k + i)) pid verbose).1 ∉ (["Error", "NOT_FOUND"] : List String)) →
      (waitForStatus env pid targets verbose timeout k 0).1 = false
      ∧ (waitForStatus env pid targets verbose timeout k 0).2.1 = k + (timeout + 4) / 5) := by
  constructor
  · intro j hj hprev
    exact waitForStatus_first_decision env pid targets verbose timeout timeout k 0
      (Nat.sub_zero timeout) j hj hprev
  · intro h
    exact waitForStatus_no_decision env pid targets verbose timeout timeout k 0
      (Nat.sub_zero timeout) h

/-- Witness for C7: with a pending first poll and a second poll whose
listing raises (status `Error`), waiting for `RUNNING` with the default
300-second timeout fails after exactly two polls, far below the 60-poll
budget. -/
theorem C7_wait_polling_witness :
    (waitForStatus pollEnv "abc" ["RUNNING"] false 300 0 0).1 = false
    ∧ (waitForStatus pollEnv "abc" ["RUNNING"] false 300 0 0).2.1 = 2
    ∧ 2 < 0 + (300 + 4) / 5 := by
  have h := (C7_wait_polling pollEnv "abc" ["RUNNING"] false 300 0).1 1
    (by omega)
    (fun i hi => by
      have h0 : i = 0 := by omega
      subst h0
      exact ⟨by with_unfolding_all decide, by with_unfolding_all decide⟩)
  have h2 := h.2 (by with_unfolding_all decide) (by with_unfolding_all decide)
  exact ⟨h2.1, h2.2, by omega⟩
